import Mathlib

/-!
Verification of the ui-review persistent session orchestrator
(`src/bin/server.js`) and the site discovery crawler (`src/lib/discover.js`).

The JavaScript source is shallowly embedded: JS objects used as string-keyed
maps become association lists with JS-object update semantics (updating an
existing key keeps its position, a new key is appended; `delete` removes it),
external effects (HTTP fetches, the browser engine, the analysis service)
become oracle parameters, and the report / session mutations become pure
state-passing functions.  Scalar metadata fields that no property mentions
(ids, timestamps on the report, config echo fields) are elided.
-/

namespace UiReview

/-! ## JS-object style association maps -/

/-- Lookup in a JS-object-like association list (keys are unique in a JS
object, so the first hit is the entry). -/
def lookupKey {κ α : Type} [DecidableEq κ] : List (κ × α) → κ → Option α
  | [], _ => none
  | kv :: rest, k => if kv.1 = k then some kv.2 else lookupKey rest k

/-- JS `obj[k] = v`: replace in place when the key exists, append otherwise. -/
def setKey {κ α : Type} [DecidableEq κ] : List (κ × α) → κ → α → List (κ × α)
  | [], k, v => [(k, v)]
  | kv :: rest, k, v =>
      if kv.1 = k then (k, v) :: rest else kv :: setKey rest k v

/-- JS `delete obj[k]`. -/
def delKey {κ α : Type} [DecidableEq κ] (m : List (κ × α)) (k : κ) : List (κ × α) :=
  m.filter (fun kv => kv.1 ≠ k)

/-- JS `k in obj`. -/
def hasKey {κ α : Type} [DecidableEq κ] (m : List (κ × α)) (k : κ) : Bool :=
  m.any (fun kv => kv.1 = k)

/-! ## Image Diff Engine (`server.js` 258-268)

PNG buffers are embedded as already-decoded raster images (width, height and
a pixel array); byte-identical buffers decode to equal images. -/

/-- One RGBA pixel. -/
structure Pixel where
  r : Nat
  g : Nat
  b : Nat
  a : Nat
deriving Repr, DecidableEq

/-- A decoded raster image (what `PNG.sync.read` yields). -/
structure Img where
  width : Nat
  height : Nat
  data : List Pixel
deriving Repr, DecidableEq

/-- Modelled from the spec: the external `pixelmatch` library's per-pixel
colour distance, a symmetric magnitude of the channel differences used for
its "sub-pixel-tolerant comparison". -/
def pixelDelta (p q : Pixel) : Nat :=
  (max p.r q.r - min p.r q.r) + (max p.g q.g - min p.g q.g) +
    (max p.b q.b - min p.b q.b) + (max p.a q.a - min p.a q.a)

/-- Modelled from the spec: the "small tolerance to absorb
anti-aliasing/rendering jitter" that `pixelmatch` applies per pixel
(the source passes `threshold: 0.1` to it). -/
def subPixelTolerance : Nat := 25

/-- Modelled from the spec: the external `pixelmatch` call — the count of
pixel positions whose colour distance exceeds the sub-pixel tolerance. -/
def pixelmatchCount : List Pixel → List Pixel → Nat
  | p :: ps, q :: qs =>
      (if subPixelTolerance < pixelDelta p q then 1 else 0) + pixelmatchCount ps qs
  | _, _ => 0

/-- server.js 261: the default `threshold = 0.005` of `screenshotsChanged`. -/
def defaultDiffThreshold : ℚ := 5 / 1000

/-- server.js 261-268: `screenshotsChanged(buf1, buf2, threshold)` — dimension
mismatch is immediately "changed"; otherwise changed iff the differing-pixel
ratio exceeds the threshold. -/
def screenshotsChanged (img1 img2 : Img) (threshold : ℚ) : Bool :=
  if img1.width ≠ img2.width ∨ img1.height ≠ img2.height then true
  else
    let totalPixels := img1.width * img1.height
    let diffCount := pixelmatchCount img1.data img2.data
    decide ((diffCount : ℚ) / (totalPixels : ℚ) > threshold)

/-- server.js 327: `screenshotsChanged` as the poll cycle calls it, with the
default threshold. -/
def screenshotsChangedD (img1 img2 : Img) : Bool :=
  screenshotsChanged img1 img2 defaultDiffThreshold

/-! ## Discovery Crawler (`discover.js`) -/

/-- discover.js 10? — JS `\w` word characters used by `pageNameFromPath`. -/
def isWordChar (c : Char) : Bool :=
  c.isAlpha || c.isDigit || c = '_'

/-- discover.js 39: `replace(/^\//, '')` — drop one leading slash. -/
def dropLeadingSlash : List Char → List Char
  | '/' :: rest => rest
  | s => s

/-- discover.js 39: `replace(/\.\w+$/, '')` — drop a trailing `.ext`. -/
def dropExtension (s : List Char) : List Char :=
  let rev := s.reverse
  let ext := rev.takeWhile isWordChar
  match rev.dropWhile isWordChar with
  | '.' :: rs => if ext.isEmpty then s else rs.reverse
  | _ => s

/-- discover.js 39: `replace(/[_-]/g, ' ')`. -/
def dashToSpace (c : Char) : Char :=
  if c = '_' ∨ c = '-' then ' ' else c

/-- discover.js 39: `replace(/\//g, ' > ')`. -/
def slashToArrow (c : Char) : List Char :=
  if c = '/' then [' ', '>', ' '] else [c]

/-- discover.js 38-41: `pageNameFromPath` — derive a human-readable page name
from a URL path. -/
def pageNameFromPath (path : String) : String :=
  let base :=
    ((dropExtension (dropLeadingSlash path.toList)).map dashToSpace).flatMap slashToArrow
  let name := if base.isEmpty then "Home".toList else base
  match name with
  | [] => ""
  | c :: rest => String.mk (c.toUpper :: rest)

/-- discover.js 250-256 / 349: one discovered page entry. -/
structure PageInfo where
  name : String
  path : String
  depth : Nat
  status : Nat
  links : Nat
deriving Repr, DecidableEq

/-- discover.js 294 / 354-359: the value returned by `discoverPages`. -/
structure DiscoverResult where
  pages : List PageInfo
  source : String
  totalLinksFound : Nat
  pagesSkipped : Nat
deriving Repr, DecidableEq

/-- discover.js 347-360: the sitemap branch of `discoverPages`, applied to the
unique same-origin normalized locations `trySitemap` extracted. -/
def discoverFromSitemap (sitemapPaths : List String) (maxPages : Nat) : DiscoverResult :=
  { pages := (sitemapPaths.take maxPages).map
      (fun p => { name := pageNameFromPath p, path := p, depth := 0, status := 0, links := 0 }),
    source := "sitemap",
    totalLinksFound := sitemapPaths.length,
    pagesSkipped := (max 0 ((sitemapPaths.length : ℤ) - (maxPages : ℤ))).toNat }

/-- discover.js 310-376: `discoverPages` — the sitemap fetch (`trySitemap`,
which returns null or a nonempty path list) and the BFS crawl are external
effects, passed in as oracles. -/
def discoverPages (sitemapPaths : Option (List String)) (crawl : DiscoverResult)
    (maxPages : Nat) : DiscoverResult :=
  match sitemapPaths with
  | some ps =>
      if ps.length > 0 then discoverFromSitemap ps maxPages
      else { crawl with source := "crawl" }
  | none => { crawl with source := "crawl" }

/-! ## Report data model (`server.js` 579-592, `report.js`) -/

/-- server.js 123-126: `resultKey(pageName, viewportName)`. -/
def resultKey (pageName viewportName : String) : String :=
  pageName ++ "::" ++ viewportName

/-- report.js 10: the fixed severity set `sanitizeIssue` admits. -/
inductive Severity
  | critical
  | warning
  | suggestion
deriving Repr, DecidableEq

/-- report.js 11-14: the fixed category set `sanitizeIssue` admits. -/
inductive Category
  | layout
  | typography
  | components
  | spacing
  | visualHierarchy
  | accessibility
  | responsiveFit
deriving Repr, DecidableEq

/-- report.js 22-28: one sanitized issue. -/
structure Issue where
  severity : Severity
  category : Category
  location : String
  description : String
  recommendation : String
deriving Repr, DecidableEq

/-- report.js 45-51: a sanitized review result (the source's `_raw` flag is
embedded as `raw`; `screenshot` is set by the pipeline before the commit). -/
structure ReviewResult where
  url : String
  viewport : String
  issues : List Issue
  summary : String
  raw : Bool
  screenshot : String
deriving Repr, DecidableEq

/-- server.js 671 / 836: an entry of `report.errors`. -/
structure ReportError where
  message : String
  timestamp : String
deriving Repr, DecidableEq

/-- server.js 591: the five summary counters. -/
structure Summary where
  pages : Nat
  issues : Nat
  critical : Nat
  warning : Nat
  suggestion : Nat
deriving Repr, DecidableEq

/-- server.js 591: `{ pages: 0, issues: 0, critical: 0, warning: 0, suggestion: 0 }`. -/
def emptySummary : Summary :=
  { pages := 0, issues := 0, critical := 0, warning := 0, suggestion := 0 }

/-- server.js 580-592: the mutable report record (results, errors and summary;
scalar metadata such as id and timestamps is elided). -/
structure Report where
  results : List (String × ReviewResult)
  errors : List (String × ReportError)
  summary : Summary
deriving Repr, DecidableEq

/-- server.js 580-592: a freshly created report. -/
def freshReport : Report :=
  { results := [], errors := [], summary := emptySummary }

/-- Number of issues of a given severity in a list. -/
def countSeverity (issues : List Issue) (s : Severity) : Nat :=
  (issues.filter (fun i => i.severity = s)).length

/-- server.js 808-819 and 364-372: the summary recomputed from scratch over
`report.results` (key count, then per-issue severity tallies). -/
def recomputeSummary (results : List (String × ReviewResult)) : Summary :=
  { pages := results.length,
    issues := (results.map (fun kv => kv.2.issues.length)).sum,
    critical := (results.map (fun kv => countSeverity kv.2.issues .critical)).sum,
    warning := (results.map (fun kv => countSeverity kv.2.issues .warning)).sum,
    suggestion := (results.map (fun kv => countSeverity kv.2.issues .suggestion)).sum }

/-! ## Report mutations performed by the pipeline and the poll cycle -/

/-- server.js 803-822: the success path of the review pipeline for one key —
store the result, clear any prior error, recompute the summary from scratch. -/
def commitResult (r : Report) (k : String) (res : ReviewResult) : Report :=
  let results := setKey r.results k res
  { results := results,
    errors := delKey r.errors k,
    summary := recomputeSummary results }

/-- server.js 830-845 / 359: the failure path for one key — record the error;
neither `report.results` nor the summary is touched. -/
def commitError (r : Report) (k : String) (e : ReportError) : Report :=
  { r with errors := setKey r.errors k e }

/-- server.js 356-357: the poll cycle's per-key success commit — store the
result and clear the error, without recomputing the summary yet. -/
def pollCommitResult (r : Report) (k : String) (res : ReviewResult) : Report :=
  { r with results := setKey r.results k res, errors := delKey r.errors k }

/-- server.js 364-372: the single summary recomputation at the end of a poll
cycle. -/
def pollFinalize (r : Report) : Report :=
  { r with summary := recomputeSummary r.results }

/-- Outcome of one page×viewport key inside a poll cycle, as it affects the
report. -/
inductive PollOutcome
  | success (k : String) (res : ReviewResult)
  | failure (k : String) (e : ReportError)
  | skipped

/-- Apply one poll-cycle key outcome to the report (server.js 330, 356-359). -/
def applyPollOutcome (r : Report) : PollOutcome → Report
  | .success k res => pollCommitResult r k res
  | .failure k e => commitError r k e
  | .skipped => r

/-- server.js 288-374: the report mutation of one whole poll cycle — the
per-key commits followed by the summary recomputation. -/
def runPollCycleReport (r : Report) (outs : List PollOutcome) : Report :=
  pollFinalize (outs.foldl applyPollOutcome r)

/-- One report mutation as performed by the pipeline or the poll cycle, at the
granularity at which the report is persisted (`saveReport`). -/
inductive ReportStep : Report → Report → Prop
  | result (r : Report) (k : String) (res : ReviewResult) :
      ReportStep r (commitResult r k res)
  | error (r : Report) (k : String) (e : ReportError) :
      ReportStep r (commitError r k e)
  | poll (r : Report) (outs : List PollOutcome) :
      ReportStep r (runPollCycleReport r outs)

/-- Reports reachable from a fresh report by pipeline / poll-cycle mutations. -/
inductive ReachableReport : Report → Prop
  | init : ReachableReport freshReport
  | step {r r' : Report} : ReachableReport r → ReportStep r r' → ReachableReport r'

/-- The stored summary agrees with a from-scratch recomputation. -/
def summaryOk (r : Report) : Prop :=
  r.summary = recomputeSummary r.results

/-- A key present in `results` is absent from `errors`. -/
def resultsErrorsDisjoint (r : Report) : Prop :=
  ∀ k, hasKey r.results k = true → hasKey r.errors k = false

/-! ## Session registry (`server.js` 73-77) -/

/-- An opaque Playwright `storageState` credential bundle. -/
structure AuthState where
  dat : Nat
deriving Repr, DecidableEq

/-- A page handle together with the storage state its browser context was
seeded from (`newContext({ storageState })` then `ctx.newPage()`). -/
structure PageHandle where
  hid : Nat
  ctxAuth : Option AuthState
deriving Repr, DecidableEq

/-- server.js 219-224: a page's `tokenAuth` spec. -/
structure TokenAuth where
  endpoint : String
  method : String
  body : String
  responseField : String
  queryParam : String
deriving Repr, DecidableEq

/-- A page spec as carried in review requests and sessions. -/
structure PageSpec where
  name : String
  path : String
  tokenAuth : Option TokenAuth
  actions : List String
deriving Repr, DecidableEq

/-- server.js 73-77: one entry of the `watchSessions` map.  Browser and page
handles are identified by numeric ids; `pollTimer` records whether a recurring
timer handle is held. -/
structure Session where
  browser : Nat
  page : PageHandle
  authState : Option AuthState
  config : Nat
  pages : List PageSpec
  viewports : List String
  baseUrl : String
  allowPrivate : Bool
  pollTimer : Bool
  reviewInProgress : Bool
  startedAt : String
deriving Repr, DecidableEq

/-- The `watchSessions` registry, keyed by report id. -/
abbrev Registry := List (String × Session)

/-- server.js 1031-1040: one entry of the `GET /api/watch` active listing. -/
structure SessionSummary where
  reportId : String
  baseUrl : String
  startedAt : String
  reviewInProgress : Bool
  polling : Bool
deriving Repr, DecidableEq

/-- server.js 1031-1044: the active watch-session listing. -/
def listActive (sessions : Registry) : List SessionSummary :=
  sessions.map (fun kv =>
    { reportId := kv.1, baseUrl := kv.2.baseUrl, startedAt := kv.2.startedAt,
      reviewInProgress := kv.2.reviewInProgress, polling := kv.2.pollTimer })

/-! ## Busy-flag acquisition (`server.js` 274-283 and 613-619) -/

/-- How an attempt to start a run against a session resolves. -/
inductive EntryOutcome
  | refused
  | started
  | notASession
deriving Repr, DecidableEq

/-- server.js 274-283: the guard at the top of `runPollCycle` — a missing
session or one with `reviewInProgress` set makes the cycle a no-op; otherwise
the flag is taken (and released again at once when the report fails to load,
modelled by `reportExists`). -/
def pollCycleEntry (sessions : Registry) (reportId : String) (reportExists : Bool) :
    Registry × EntryOutcome :=
  match lookupKey sessions reportId with
  | none => (sessions, .refused)
  | some s =>
      if s.reviewInProgress then (sessions, .refused)
      else if reportExists then
        (setKey sessions reportId { s with reviewInProgress := true }, .started)
      else (sessions, .refused)

/-- server.js 507 and 613-619: the watch re-trigger branch of `runReview` —
when the request names a registered session, its browser and page are borrowed
and `reviewInProgress` is set, with no check of the flag's prior value; when no
session is registered the run proceeds as an ordinary (fresh or resume) run. -/
def reviewRetriggerEntry (sessions : Registry) (reportId : String) :
    Registry × EntryOutcome :=
  match lookupKey sessions reportId with
  | none => (sessions, .notASession)
  | some s =>
      (setKey sessions reportId { s with reviewInProgress := true }, .started)

/-! ## Crash supervisor (`server.js` 884-910) -/

/-- Which disconnect listener is armed on a session's current browser handle:
the relaunch-once listener installed at registration (885), or the give-up
listener installed on the relaunched browser (897). -/
inductive Handler
  | relaunchOnce
  | giveUp
deriving Repr, DecidableEq

/-- The result of a `launchBrowser` + `newContext` + `newPage` sequence during
crash recovery, when it succeeds. -/
structure Launched where
  browser : Nat
  pageId : Nat
deriving Repr, DecidableEq

/-- Everything a disconnect event does: the updated registry, how many browser
relaunches were attempted, which listener is armed on the session's browser
afterwards (none when the session is gone), and whether a poll timer was
cancelled. -/
structure DisconnectOutcome where
  sessions : Registry
  launchAttempts : Nat
  nextHandler : Option Handler
  timerCancelled : Bool
deriving Repr, DecidableEq

/-- server.js 884-910: the disconnect observer.  `h` is the listener attached
to the browser that disconnected; `relaunch` is the oracle for the relaunch
attempt (`none` = launch/context/page creation threw). -/
def onDisconnect (sessions : Registry) (reportId : String) (h : Handler)
    (relaunch : Option Launched) : DisconnectOutcome :=
  match lookupKey sessions reportId with
  | none => { sessions := sessions, launchAttempts := 0, nextHandler := none,
              timerCancelled := false }
  | some s =>
      match h with
      | .giveUp =>
          { sessions := delKey sessions reportId, launchAttempts := 0,
            nextHandler := none, timerCancelled := s.pollTimer }
      | .relaunchOnce =>
          match relaunch with
          | some l =>
              { sessions := setKey sessions reportId
                  { s with browser := l.browser,
                           page := { hid := l.pageId, ctxAuth := s.authState } },
                launchAttempts := 1, nextHandler := some .giveUp,
                timerCancelled := false }
          | none =>
              { sessions := delKey sessions reportId, launchAttempts := 1,
                nextHandler := none, timerCancelled := s.pollTimer }

/-! ## The `finally` block of `runReview` (`server.js` 859-923) -/

/-- What the cleanup path of `runReview` does with the browser. -/
inductive FinallyOutcome
  | clearFlagOnly
  | registered (s : Session)
  | browserClosed
  | nothing
deriving Repr, DecidableEq

/-- server.js 859-923: the `finally` block.  `isRetrigger` is whether the run
borrowed an existing watch session; `sharedBrowser`/`sharedPage` are the
handles the run launched (none outside watch mode); `isWatchSession` is
`watchMode || !!watchSession` (line 603).  Registration stores the session and
starts the poll timer when `pollInterval && pollInterval >= 60000`. -/
def runReviewFinally (isRetrigger : Bool) (sharedBrowser : Option Nat)
    (sharedPage : Option PageHandle) (watchMode aborted : Bool)
    (authState : Option AuthState) (config : Nat) (pages : List PageSpec)
    (resolvedViewports : List String) (baseUrl : String) (allowPrivate : Bool)
    (pollInterval : Option Nat) (now : String) : FinallyOutcome :=
  let isWatchSession := watchMode || isRetrigger
  if isRetrigger then .clearFlagOnly
  else
    match sharedBrowser with
    | some b =>
        if isWatchSession then
          .registered
            { browser := b,
              page := sharedPage.getD { hid := 0, ctxAuth := none },
              authState := authState, config := config, pages := pages,
              viewports := resolvedViewports, baseUrl := baseUrl,
              allowPrivate := allowPrivate,
              pollTimer := (match pollInterval with
                            | some n => n ≥ 60000
                            | none => false),
              reviewInProgress := false, startedAt := now }
        else .browserClosed
    | none => .nothing

/-! ## Stop endpoint (`server.js` 1047-1062) -/

/-- The HTTP response of `POST /api/watch/:reportId/stop`. -/
structure StopResponse where
  status : Nat
  ok : Bool
  error : Option String
deriving Repr, DecidableEq

/-- server.js 1047-1062: stop a watch session — unknown ids get a 404 error
response; otherwise the poll timer is cleared, the browser closed, and the
session removed. -/
def stopWatchSession (sessions : Registry) (reportId : String) :
    Registry × StopResponse × Bool :=
  match lookupKey sessions reportId with
  | none =>
      (sessions, { status := 404, ok := false, error := some "Watch session not found" },
        false)
  | some s =>
      (delKey sessions reportId, { status := 200, ok := true, error := none },
        s.pollTimer)

/-! ## Token injection and the per-page review loop (`server.js` 649-847) -/

/-- server.js 255: the value `generatePageToken` resolves to on success. -/
structure Token where
  queryParam : String
  value : String
deriving Repr, DecidableEq

/-- JS `baseUrl.replace(/\/$/, '')` — drop one trailing slash. -/
def dropTrailingSlash (s : String) : String :=
  match s.toList.reverse with
  | '/' :: rest => String.mk rest.reverse
  | _ => s

/-- server.js 663-665: the query-string suffix appended to the page path once
a token was generated (URL-encoding of the value is treated as opaque). -/
def tokenSuffixOf (page : PageSpec) (tok : Token) : String :=
  let sep := if page.path.contains '?' then "&" else "?"
  sep ++ tok.queryParam ++ "=" ++ tok.value

/-- server.js 687-688: the capture target URL for one page×viewport. -/
def fullUrlOf (baseUrl : String) (page : PageSpec) (tokenSuffix : String) : String :=
  dropTrailingSlash baseUrl ++ page.path ++ tokenSuffix

/-- server.js 684-846: the body of the per-viewport loop, with capture,
analysis and the fallback chain collapsed into the `outcome` oracle (an error
is whatever message the thrown exception carried).  Keys in `skip` are
skipped; a success commits the sanitized result carrying the capture URL. -/
def processViewport (report : Report) (pageName : String) (fullUrl : String)
    (skip : List String) (outcome : Except String ReviewResult) (vp : String)
    (ts : String) : Report :=
  let k := resultKey pageName vp
  if skip.contains k then report
  else
    match outcome with
    | .ok res => commitResult report k { res with url := fullUrl, viewport := vp }
    | .error msg => commitError report k { message := msg, timestamp := ts }

/-- server.js 649-847: the body of the per-page loop.  The token is fetched
once, before the viewport loop, iff the page declares `tokenAuth` and an
`authState` is present (`tokenFetch` is the oracle for `generatePageToken`'s
HTTP exchange); on token failure every viewport key of the page is marked with
a token-generation error and the page is skipped; otherwise the same token
suffix is shared by every viewport of the page.  Returns the mutated report
and the number of token fetches issued. -/
def processPage (report : Report) (page : PageSpec) (viewports : List String)
    (baseUrl : String) (hasAuthState : Bool) (skip : List String)
    (tokenFetch : Except String Token)
    (outcomes : String → Except String ReviewResult) (ts : String) :
    Report × Nat :=
  if page.tokenAuth.isSome && hasAuthState then
    match tokenFetch with
    | .error msg =>
        (viewports.foldl
          (fun acc vp => commitError acc (resultKey page.name vp)
            { message := "Token generation failed: " ++ msg, timestamp := ts })
          report, 1)
    | .ok tok =>
        (viewports.foldl
          (fun acc vp => processViewport acc page.name
            (fullUrlOf baseUrl page (tokenSuffixOf page tok)) skip (outcomes vp) vp ts)
          report, 1)
  else
    (viewports.foldl
      (fun acc vp => processViewport acc page.name (fullUrlOf baseUrl page "") skip
        (outcomes vp) vp ts)
      report, 0)

/-- One page of a review run together with its external outcomes: the token
fetch result and the per-viewport capture/analysis result. -/
structure PageJob where
  page : PageSpec
  tokenFetch : Except String Token
  outcomes : String → Except String ReviewResult

/-- server.js 649-847: the whole page loop of `runReview` — pages processed in
order, one page's failure never stopping the rest. -/
def processPages (report : Report) (jobs : List PageJob) (viewports : List String)
    (baseUrl : String) (hasAuthState : Bool) (skip : List String) (ts : String) :
    Report :=
  jobs.foldl
    (fun acc job =>
      (processPage acc job.page viewports baseUrl hasAuthState skip job.tokenFetch
        job.outcomes ts).1)
    report

/-! ## Poll-cycle change gating (`server.js` 306-359) -/

/-- What one page×viewport key of a poll cycle did: the mutated report,
whether an analysis call was issued, and whether the new raster was persisted
over the baseline. -/
structure PollKeyOutcome where
  report : Report
  analysisIssued : Bool
  persisted : Bool
deriving Repr

/-- server.js 306-359: one page×viewport key of the poll cycle.  `prev` is the
previously persisted raster (none when no baseline file exists), `capture` the
oracle for `captureScreenshot`, and `analysisOutcome` the oracle for the
analysis + fallback chain on the new raster.  An unchanged raster skips
analysis and leaves the report untouched; a changed (or first) raster is
persisted before analysis runs. -/
def pollKeyStep (report : Report) (k : String) (prev : Option Img)
    (capture : Except String Img)
    (analysisOutcome : Img → Except String ReviewResult) (ts : String) :
    PollKeyOutcome :=
  match capture with
  | .error msg =>
      { report := commitError report k
          { message := "Poll cycle error: " ++ msg, timestamp := ts },
        analysisIssued := false, persisted := false }
  | .ok buffer =>
      let changed := match prev with
        | some p => screenshotsChangedD p buffer
        | none => true
      if changed then
        match analysisOutcome buffer with
        | .ok res =>
            { report := pollCommitResult report k res,
              analysisIssued := true, persisted := true }
        | .error msg =>
            { report := commitError report k
                { message := "Poll cycle error: " ++ msg, timestamp := ts },
              analysisIssued := true, persisted := true }
      else
        { report := report, analysisIssued := false, persisted := false }

/-! ## Concrete demonstration values -/

/-- A sample sanitized issue. -/
def demoIssue : Issue :=
  { severity := .critical, category := .layout, location := "header",
    description := "nav overlaps logo", recommendation := "add spacing" }

/-- A sample sanitized review result. -/
def demoResult : ReviewResult :=
  { url := "http://site/home", viewport := "desktop", issues := [demoIssue],
    summary := "one issue", raw := false, screenshot := "screenshots/home_desktop.png" }

/-- A sample capture error. -/
def demoError : ReportError :=
  { message := "navigation timeout", timestamp := "t1" }

/-- A report in which the key `home::desktop` succeeded and then failed: the
success commit followed by the error commit of the same key. -/
def overlapReport : Report :=
  commitError (commitResult freshReport "home::desktop" demoResult)
    "home::desktop" demoError

/-- A registered session whose `reviewInProgress` flag is held. -/
def demoBusySession : Session :=
  { browser := 1, page := { hid := 2, ctxAuth := none }, authState := none,
    config := 0, pages := [], viewports := ["desktop"], baseUrl := "http://site",
    allowPrivate := false, pollTimer := true, reviewInProgress := true,
    startedAt := "t0" }

/-- A one-session registry holding a busy session. -/
def demoBusyRegistry : Registry := [("review-1", demoBusySession)]

/-- The same session, idle, with an auth state. -/
def demoIdleSession : Session :=
  { demoBusySession with reviewInProgress := false, authState := some ⟨7⟩ }

/-- A one-session registry holding an idle session. -/
def demoIdleRegistry : Registry := [("review-2", demoIdleSession)]

/-- A sample 2×1 all-black image. -/
def demoImgA : Img :=
  { width := 2, height := 1, data := [⟨0, 0, 0, 255⟩, ⟨0, 0, 0, 255⟩] }

/-- A sample 2×1 image differing from `demoImgA` in one pixel. -/
def demoImgB : Img :=
  { width := 2, height := 1, data := [⟨255, 255, 255, 255⟩, ⟨0, 0, 0, 255⟩] }

/-- A sample token-auth spec. -/
def demoTokenAuth : TokenAuth :=
  { endpoint := "/api/token", method := "POST", body := "",
    responseField := "data.token", queryParam := "token" }

/-- Page A of the 2×2 token scenario: declares token auth. -/
def demoPageA : PageSpec :=
  { name := "A", path := "/a", tokenAuth := some demoTokenAuth, actions := [] }

/-- Page B of the 2×2 token scenario: no token auth. -/
def demoPageB : PageSpec :=
  { name := "B", path := "/b", tokenAuth := none, actions := [] }

/-- A successful analysis result for page B at a given viewport. -/
def demoResultB (vp : String) : ReviewResult :=
  { url := "", viewport := vp, issues := [], summary := "fine", raw := false,
    screenshot := "" }

/-- Page A's job: its token endpoint returns a non-success status. -/
def demoJobA : PageJob :=
  { page := demoPageA, tokenFetch := .error "Token endpoint returned 500",
    outcomes := fun _ => .error "unreached" }

/-- Page B's job: both viewports succeed. -/
def demoJobB : PageJob :=
  { page := demoPageB, tokenFetch := .error "no fetch happens",
    outcomes := fun vp => .ok (demoResultB vp) }

/-- The 2 pages × 2 viewports scenario run: page A's token fetch fails, page
B's captures succeed. -/
def demoScenarioReport : Report :=
  processPages freshReport [demoJobA, demoJobB] ["desktop", "mobile"]
    "http://site" true [] "t2"

/-- The five-location sitemap of the discovery scenario. -/
def demoSitemapPaths : List String :=
  ["/", "/about", "/pricing", "/blog", "/contact"]

/-- A crawl-result oracle (unused on the sitemap path). -/
def demoCrawl : DiscoverResult :=
  { pages := [], source := "", totalLinksFound := 0, pagesSkipped := 0 }

/-! ## Association-map lemmas -/

theorem lookupKey_setKey_self {κ α : Type} [DecidableEq κ] (m : List (κ × α))
    (k : κ) (v : α) : lookupKey (setKey m k v) k = some v := by
  induction m with
  | nil => simp [setKey, lookupKey]
  | cons kv rest ih =>
      by_cases h : kv.1 = k
      · simp [setKey, h, lookupKey]
      · simp [setKey, h, lookupKey, ih]

theorem lookupKey_setKey_ne {κ α : Type} [DecidableEq κ] (m : List (κ × α))
    (k k' : κ) (v : α) (h : k' ≠ k) :
    lookupKey (setKey m k v) k' = lookupKey m k' := by
  induction m with
  | nil => simp [setKey, lookupKey, Ne.symm h]
  | cons kv rest ih =>
      by_cases hk : kv.1 = k
      · simp [setKey, hk, lookupKey, Ne.symm h]
      · simp [setKey, hk, lookupKey, ih]

theorem lookupKey_delKey_self {κ α : Type} [DecidableEq κ] (m : List (κ × α))
    (k : κ) : lookupKey (delKey m k) k = none := by
  induction m with
  | nil => rfl
  | cons kv rest ih =>
      by_cases h : kv.1 = k
      · simpa [delKey, h] using ih
      · simpa [delKey, h, lookupKey] using ih

theorem hasKey_eq_isSome {κ α : Type} [DecidableEq κ] (m : List (κ × α)) (k : κ) :
    hasKey m k = (lookupKey m k).isSome := by
  induction m with
  | nil => rfl
  | cons kv rest ih =>
      by_cases h : kv.1 = k
      · simp [hasKey, lookupKey, h]
      · simpa [hasKey, lookupKey, h] using ih

theorem lookupKey_foldl_setKey_keep {κ α β : Type} [DecidableEq κ] (l : List β)
    (m : List (κ × α)) (f : β → κ) (c : α) (k : κ) (h : lookupKey m k = some c) :
    lookupKey (l.foldl (fun acc y => setKey acc (f y) c) m) k = some c := by
  induction l generalizing m with
  | nil => simpa using h
  | cons y ys ih =>
      simp only [List.foldl_cons]
      apply ih
      by_cases hk : k = f y
      · subst hk; exact lookupKey_setKey_self m (f y) c
      · rw [lookupKey_setKey_ne m (f y) k c hk]; exact h

theorem lookupKey_foldl_setKey_const {κ α β : Type} [DecidableEq κ] (l : List β)
    (m : List (κ × α)) (f : β → κ) (c : α) (x : β) (hx : x ∈ l) :
    lookupKey (l.foldl (fun acc y => setKey acc (f y) c) m) (f x) = some c := by
  induction l generalizing m with
  | nil => cases hx
  | cons y ys ih =>
      simp only [List.foldl_cons]
      rcases List.mem_cons.mp hx with h | h
      · subst h
        exact lookupKey_foldl_setKey_keep ys _ f c (f x)
          (lookupKey_setKey_self m (f x) c)
      · exact ih _ h

theorem lookupKey_foldl_setKey_inj_keep {κ α β : Type} [DecidableEq κ] (l : List β)
    (m : List (κ × α)) (f : β → κ) (g : β → α)
    (hinj : ∀ x y, f x = f y → x = y) (x : β)
    (h : lookupKey m (f x) = some (g x)) :
    lookupKey (l.foldl (fun acc y => setKey acc (f y) (g y)) m) (f x) = some (g x) := by
  induction l generalizing m with
  | nil => simpa using h
  | cons y ys ih =>
      simp only [List.foldl_cons]
      apply ih
      by_cases hk : f x = f y
      · have : x = y := hinj x y hk
        subst this
        exact lookupKey_setKey_self m (f x) (g x)
      · rw [lookupKey_setKey_ne m (f y) (f x) (g y) hk]; exact h

theorem lookupKey_foldl_setKey_inj {κ α β : Type} [DecidableEq κ] (l : List β)
    (m : List (κ × α)) (f : β → κ) (g : β → α)
    (hinj : ∀ x y, f x = f y → x = y) (x : β) (hx : x ∈ l) :
    lookupKey (l.foldl (fun acc y => setKey acc (f y) (g y)) m) (f x) = some (g x) := by
  induction l generalizing m with
  | nil => cases hx
  | cons y ys ih =>
      simp only [List.foldl_cons]
      rcases List.mem_cons.mp hx with h | h
      · subst h
        exact lookupKey_foldl_setKey_inj_keep ys _ f g hinj x
          (lookupKey_setKey_self m (f x) (g x))
      · exact ih _ h

/-! ## Report-fold lemmas -/

theorem foldl_commitError_results (l : List String) (f : String → String)
    (c : ReportError) (r : Report) :
    (l.foldl (fun acc vp => commitError acc (f vp) c) r).results = r.results := by
  induction l generalizing r with
  | nil => rfl
  | cons y ys ih => simpa [commitError] using ih _

theorem foldl_commitError_summary (l : List String) (f : String → String)
    (c : ReportError) (r : Report) :
    (l.foldl (fun acc vp => commitError acc (f vp) c) r).summary = r.summary := by
  induction l generalizing r with
  | nil => rfl
  | cons y ys ih => simpa [commitError] using ih _

theorem foldl_commitError_errors (l : List String) (f : String → String)
    (c : ReportError) (r : Report) :
    (l.foldl (fun acc vp => commitError acc (f vp) c) r).errors
      = l.foldl (fun m vp => setKey m (f vp) c) r.errors := by
  induction l generalizing r with
  | nil => rfl
  | cons y ys ih => simpa [commitError] using ih _

theorem foldl_commitResult_results (l : List String) (f : String → String)
    (g : String → ReviewResult) (r : Report) :
    (l.foldl (fun acc vp => commitResult acc (f vp) (g vp)) r).results
      = l.foldl (fun m vp => setKey m (f vp) (g vp)) r.results := by
  induction l generalizing r with
  | nil => rfl
  | cons y ys ih => simpa [commitResult] using ih _

theorem resultKey_right_inj (n v1 v2 : String)
    (h : resultKey n v1 = resultKey n v2) : v1 = v2 := by
  have hd : (resultKey n v1).data = (resultKey n v2).data := by rw [h]
  simp only [resultKey, String.data_append] at hd
  have h1 := List.append_cancel_left hd
  exact congrArg String.mk h1

/-! ## Image-diff lemmas -/

theorem pixelDelta_self (p : Pixel) : pixelDelta p p = 0 := by
  simp [pixelDelta]

theorem pixelDelta_comm (p q : Pixel) : pixelDelta p q = pixelDelta q p := by
  simp [pixelDelta, Nat.max_comm, Nat.min_comm]

theorem pixelmatchCount_self (d : List Pixel) : pixelmatchCount d d = 0 := by
  induction d with
  | nil => rfl
  | cons p rest ih => simp [pixelmatchCount, pixelDelta_self, subPixelTolerance, ih]

theorem pixelmatchCount_comm (d1 d2 : List Pixel) :
    pixelmatchCount d1 d2 = pixelmatchCount d2 d1 := by
  induction d1 generalizing d2 with
  | nil => cases d2 <;> rfl
  | cons p ps ih =>
      cases d2 with
      | nil => rfl
      | cons q qs => simp [pixelmatchCount, pixelDelta_comm p q, ih qs]

theorem screenshotsChanged_self (A : Img) (t : ℚ) (ht : 0 ≤ t) :
    screenshotsChanged A A t = false := by
  unfold screenshotsChanged
  simp [pixelmatchCount_self]
  exact ht

theorem screenshotsChanged_comm (A B : Img) (t : ℚ) :
    screenshotsChanged A B t = screenshotsChanged B A t := by
  unfold screenshotsChanged
  by_cases hw : A.width = B.width
  · by_cases hh : A.height = B.height
    · simp [hw, hh, pixelmatchCount_comm A.data B.data]
    · have hh' : ¬ B.height = A.height := fun e => hh e.symm
      simp [hw, hh, hh']
  · have hw' : ¬ B.width = A.width := fun e => hw e.symm
    simp [hw, hw']

/-! ## Claim theorems -/

/-- C9: for all raster images and any (non-negative) threshold, the image diff
is reflexive (`changed(A,A) = false`) and symmetric
(`changed(A,B) = changed(B,A)`); a dimension mismatch is immediately
"changed"; with matching dimensions the result is "changed" exactly when the
differing-pixel count over the total pixel count exceeds the threshold. -/
theorem image_diff_algebra (A B : Img) (t : ℚ) (ht : 0 ≤ t) :
    screenshotsChanged A A t = false ∧
    screenshotsChanged A B t = screenshotsChanged B A t ∧
    ((A.width ≠ B.width ∨ A.height ≠ B.height) →
      screenshotsChanged A B t = true) ∧
    (A.width = B.width → A.height = B.height →
      (screenshotsChanged A B t = true ↔
        (pixelmatchCount A.data B.data : ℚ) / ((A.width * A.height : ℕ) : ℚ) > t)) := by
  refine ⟨screenshotsChanged_self A t ht, screenshotsChanged_comm A B t, ?_, ?_⟩
  · intro h
    unfold screenshotsChanged
    rw [if_pos h]
  · intro hw hh
    unfold screenshotsChanged
    rw [if_neg (by simp [hw, hh])]
    simp

/-- C9 witness: the algebraic laws evaluated at the concrete demo images and
the source's default threshold. -/
theorem image_diff_algebra_witness :
    (0 : ℚ) ≤ 5 / 1000 ∧
    screenshotsChanged demoImgA demoImgA (5 / 1000) = false ∧
    screenshotsChanged demoImgA demoImgB (5 / 1000)
      = screenshotsChanged demoImgB demoImgA (5 / 1000) :=
  ⟨by norm_num,
    (image_diff_algebra demoImgA demoImgB (5 / 1000) (by norm_num)).1,
    (image_diff_algebra demoImgA demoImgB (5 / 1000) (by norm_num)).2.1⟩

/-- C10: when the sitemap yields more unique same-origin locations than
`maxPages`, discovery returns exactly the first `maxPages` entries in order,
with `source = "sitemap"`, `totalLinksFound` the full location count, and
`pagesSkipped` the overflow. -/
theorem sitemap_discovery_cap (ps : List String) (crawl : DiscoverResult)
    (maxPages : Nat) (h : maxPages < ps.length) :
    (discoverPages (some ps) crawl maxPages).pages.length = maxPages ∧
    (discoverPages (some ps) crawl maxPages).pages.map PageInfo.path
      = ps.take maxPages ∧
    (discoverPages (some ps) crawl maxPages).source = "sitemap" ∧
    (discoverPages (some ps) crawl maxPages).totalLinksFound = ps.length ∧
    (discoverPages (some ps) crawl maxPages).pagesSkipped = ps.length - maxPages := by
  have hpos : 0 < ps.length := lt_of_le_of_lt (Nat.zero_le _) h
  have hd : discoverPages (some ps) crawl maxPages = discoverFromSitemap ps maxPages := by
    simp [discoverPages, hpos]
  rw [hd]
  unfold discoverFromSitemap
  refine ⟨?_, ?_, rfl, rfl, ?_⟩
  · simp [Nat.min_eq_left (le_of_lt h)]
  · have hid : (PageInfo.path ∘ fun p =>
        ({ name := pageNameFromPath p, path := p, depth := 0, status := 0,
           links := 0 } : PageInfo)) = id := by
      funext p
      rfl
    simp [List.map_map, hid]
  · have h2 : (0 : ℤ) ≤ (ps.length : ℤ) - (maxPages : ℤ) := by omega
    show (max 0 ((ps.length : ℤ) - (maxPages : ℤ))).toNat = ps.length - maxPages
    rw [max_eq_right h2]
    omega

/-- C10 witness: the 5-location sitemap with `maxPages = 3` yields 3 pages,
source "sitemap" and 2 skipped. -/
theorem sitemap_discovery_cap_witness :
    3 < demoSitemapPaths.length ∧
    (discoverPages (some demoSitemapPaths) demoCrawl 3).pages.length = 3 ∧
    (discoverPages (some demoSitemapPaths) demoCrawl 3).source = "sitemap" ∧
    (discoverPages (some demoSitemapPaths) demoCrawl 3).pagesSkipped = 2 :=
  ⟨by decide,
    (sitemap_discovery_cap demoSitemapPaths demoCrawl 3 (by decide)).1,
    (sitemap_discovery_cap demoSitemapPaths demoCrawl 3 (by decide)).2.2.1,
    by decide⟩

/-- C5: every report reachable by pipeline or poll-cycle mutations carries a
summary equal to the one recomputed from scratch over its results — the
success commit and the poll-cycle finalization both recompute it fully, and
mutations that leave `results` alone leave the summary alone. -/
theorem summary_no_drift (r : Report) (h : ReachableReport r) : summaryOk r := by
  induction h with
  | init => rfl
  | step _ hstep ih =>
      cases hstep with
      | result k res => rfl
      | error k e => simpa [summaryOk, commitError] using ih
      | poll outs => rfl

/-- C5 witness: a report reached by one success commit satisfies the
invariant. -/
theorem summary_no_drift_witness :
    ReachableReport (commitResult freshReport "home::desktop" demoResult) ∧
    summaryOk (commitResult freshReport "home::desktop" demoResult) :=
  ⟨.step .init (.result _ _ _),
    summary_no_drift _ (.step .init (.result freshReport "home::desktop" demoResult))⟩

/-- C2 counterexample: a reachable report — success at `home::desktop`
followed by a failure at the same key — holds the key in `results` and in
`errors` at once, because the error commit does not remove the prior result. -/
theorem results_errors_overlap_counterexample :
    ReachableReport overlapReport ∧
    hasKey overlapReport.results "home::desktop" = true ∧
    hasKey overlapReport.errors "home::desktop" = true ∧
    ¬ resultsErrorsDisjoint overlapReport := by
  refine ⟨.step (.step .init (.result freshReport "home::desktop" demoResult))
    (.error _ "home::desktop" demoError), by decide, by decide, ?_⟩
  intro hdis
  exact absurd (hdis "home::desktop" (by decide)) (by decide)

/-- C2 amended: a successful result commit stores the result and deletes any
prior error for the key, so immediately after a success the key is absent
from `errors`; an error commit, however, leaves `results` untouched, so a key
that failed after an earlier success stays in both maps. -/
theorem success_clears_error_failure_keeps_result (r : Report) (k : String)
    (res : ReviewResult) (e : ReportError) :
    lookupKey (commitResult r k res).results k = some res ∧
    lookupKey (commitResult r k res).errors k = none ∧
    hasKey (commitResult r k res).errors k = false ∧
    (commitError r k e).results = r.results := by
  refine ⟨lookupKey_setKey_self r.results k res, lookupKey_delKey_self r.errors k,
    ?_, rfl⟩
  have he : (commitResult r k res).errors = delKey r.errors k := rfl
  rw [hasKey_eq_isSome, he, lookupKey_delKey_self r.errors k]
  rfl

/-- C1 counterexample: a registered session whose `reviewInProgress` flag is
already held — a manual re-trigger of the review endpoint for that session is
not refused: it takes the handles and starts anyway. -/
theorem retrigger_not_refused_counterexample :
    (lookupKey demoBusyRegistry "review-1").map Session.reviewInProgress
      = some true ∧
    (reviewRetriggerEntry demoBusyRegistry "review-1").2 = .started ∧
    (reviewRetriggerEntry demoBusyRegistry "review-1").2 ≠ .refused := by
  refine ⟨by decide, by decide, by decide⟩

/-- C1 amended: while a session's `reviewInProgress` flag is held, a
timer-triggered poll cycle is refused as a no-op (registry unchanged, nothing
queued); a manual re-trigger referencing the session does not check the flag —
it sets it and starts, overlapping the run in progress. -/
theorem busy_flag_poll_vs_retrigger (sessions : Registry) (reportId : String)
    (s : Session) (reportExists : Bool)
    (hs : lookupKey sessions reportId = some s)
    (hb : s.reviewInProgress = true) :
    pollCycleEntry sessions reportId reportExists = (sessions, .refused) ∧
    reviewRetriggerEntry sessions reportId
      = (setKey sessions reportId { s with reviewInProgress := true }, .started) := by
  constructor
  · unfold pollCycleEntry
    rw [hs]
    simp [hb]
  · unfold reviewRetriggerEntry
    rw [hs]

/-- C1 amended witness: the demo busy session — the poll cycle is refused
while the re-trigger starts. -/
theorem busy_flag_poll_vs_retrigger_witness :
    lookupKey demoBusyRegistry "review-1" = some demoBusySession ∧
    demoBusySession.reviewInProgress = true ∧
    pollCycleEntry demoBusyRegistry "review-1" true = (demoBusyRegistry, .refused) :=
  ⟨by decide, by decide,
    (busy_flag_poll_vs_retrigger demoBusyRegistry "review-1" demoBusySession true
      (by decide) (by decide)).1⟩

/-- C3: a browser disconnect on a registered session attempts exactly one
relaunch — the new browser and page handles are swapped in, the page's context
is re-seeded from the session's `authState`, every other field and the session
key stay untouched, and the give-up observer is re-attached to the new handle;
a failed relaunch removes the session (cancelling its timer iff held) with
that single attempt; the observer on the relaunched browser removes the
session on the next crash with no further relaunch attempt; and a disconnect
for an already-removed session does nothing. -/
theorem crash_recovery_behavior (sessions : Registry) (reportId : String)
    (s : Session) (l : Launched) (hs : lookupKey sessions reportId = some s) :
    onDisconnect sessions reportId .relaunchOnce (some l)
      = { sessions := setKey sessions reportId
            { s with browser := l.browser,
                     page := { hid := l.pageId, ctxAuth := s.authState } },
          launchAttempts := 1, nextHandler := some .giveUp,
          timerCancelled := false } ∧
    onDisconnect sessions reportId .relaunchOnce none
      = { sessions := delKey sessions reportId, launchAttempts := 1,
          nextHandler := none, timerCancelled := s.pollTimer } ∧
    (∀ relaunch : Option Launched,
      onDisconnect sessions reportId .giveUp relaunch
        = { sessions := delKey sessions reportId, launchAttempts := 0,
            nextHandler := none, timerCancelled := s.pollTimer }) ∧
    (∀ (other : Registry) (h : Handler) (relaunch : Option Launched),
      lookupKey other reportId = none →
      onDisconnect other reportId h relaunch
        = { sessions := other, launchAttempts := 0, nextHandler := none,
            timerCancelled := false }) := by
  refine ⟨?_, ?_, ?_, ?_⟩
  · unfold onDisconnect
    rw [hs]
  · unfold onDisconnect
    rw [hs]
  · intro relaunch
    unfold onDisconnect
    rw [hs]
  · intro other h relaunch hnone
    unfold onDisconnect
    rw [hnone]

/-- C3 witness: the idle demo session — one crash relaunches with the
auth-seeded context and arms the give-up observer. -/
theorem crash_recovery_behavior_witness :
    lookupKey demoIdleRegistry "review-2" = some demoIdleSession ∧
    onDisconnect demoIdleRegistry "review-2" .relaunchOnce (some ⟨10, 11⟩)
      = { sessions := setKey demoIdleRegistry "review-2"
            { demoIdleSession with browser := 10,
                                   page := { hid := 11,
                                             ctxAuth := demoIdleSession.authState } },
          launchAttempts := 1, nextHandler := some .giveUp,
          timerCancelled := false } :=
  ⟨by decide,
    (crash_recovery_behavior demoIdleRegistry "review-2" demoIdleSession ⟨10, 11⟩
      (by decide)).1⟩

/-- C4 counterexample: a first persistent (watch-mode) run whose client
aborted mid-run — the cleanup path still registers the session (handles handed
to the registry) instead of closing the run's browser. -/
theorem aborted_watch_run_registers_counterexample :
    runReviewFinally false (some 7) (some { hid := 3, ctxAuth := some ⟨9⟩ })
        true true (some ⟨9⟩) 0 [demoPageB] ["desktop"] "http://site" false
        (some 60000) "t3"
      = .registered
          { browser := 7, page := { hid := 3, ctxAuth := some ⟨9⟩ },
            authState := some ⟨9⟩, config := 0, pages := [demoPageB],
            viewports := ["desktop"], baseUrl := "http://site",
            allowPrivate := false, pollTimer := true,
            reviewInProgress := false, startedAt := "t3" } ∧
    runReviewFinally false (some 7) (some { hid := 3, ctxAuth := some ⟨9⟩ })
        true true (some ⟨9⟩) 0 [demoPageB] ["desktop"] "http://site" false
        (some 60000) "t3"
      ≠ .browserClosed := by
  refine ⟨by decide, by decide⟩

/-- C4 amended: the cleanup path of a first watch-mode run hands the launched
browser/page to the registry whether or not the client aborted (only the
in-flight analysis call is cancelled on disconnect); a non-watch run's
launched browser is closed; a re-trigger only clears the busy flag. -/
theorem watch_finally_registration (b : Nat) (sp : Option PageHandle)
    (aborted : Bool) (auth : Option AuthState) (config : Nat)
    (pages : List PageSpec) (vps : List String) (baseUrl : String) (ap : Bool)
    (pollInterval : Option Nat) (now : String) :
    runReviewFinally false (some b) sp true aborted auth config pages vps
        baseUrl ap pollInterval now
      = .registered
          { browser := b, page := sp.getD { hid := 0, ctxAuth := none },
            authState := auth, config := config, pages := pages,
            viewports := vps, baseUrl := baseUrl, allowPrivate := ap,
            pollTimer := (match pollInterval with
                          | some n => n ≥ 60000
                          | none => false),
            reviewInProgress := false, startedAt := now } ∧
    runReviewFinally false (some b) sp false aborted auth config pages vps
        baseUrl ap pollInterval now
      = .browserClosed ∧
    (∀ (sb : Option Nat) (wm : Bool),
      runReviewFinally true sb sp wm aborted auth config pages vps baseUrl ap
          pollInterval now
        = .clearFlagOnly) ∧
    runReviewFinally false none sp false aborted auth config pages vps baseUrl
        ap pollInterval now
      = .nothing :=
  ⟨rfl, rfl, fun _ _ => rfl, rfl⟩

/-- C8 counterexample: stopping the demo session succeeds, but a second stop
request for the same id is answered with a 404 "Watch session not found"
error response — not the no-op success the claim requires. -/
theorem second_stop_is_error_counterexample :
    (stopWatchSession demoIdleRegistry "review-2").2.1
      = { status := 200, ok := true, error := none } ∧
    (stopWatchSession (stopWatchSession demoIdleRegistry "review-2").1
        "review-2").2.1
      = { status := 404, ok := false, error := some "Watch session not found" } ∧
    (stopWatchSession (stopWatchSession demoIdleRegistry "review-2").1
        "review-2").2.1.ok = false := by
  refine ⟨by decide, by decide, by decide⟩

/-- C8 amended: stopping a registered session cancels its poll timer (iff one
is held), removes it from the registry so it no longer appears in the active
listing, and succeeds; a subsequent stop for the same id leaves the registry
unchanged but is answered with a 404 error response rather than a no-op
success. -/
theorem stop_session_behavior (sessions : Registry) (reportId : String)
    (s : Session) (hs : lookupKey sessions reportId = some s) :
    (stopWatchSession sessions reportId).1 = delKey sessions reportId ∧
    (stopWatchSession sessions reportId).2.1
      = { status := 200, ok := true, error := none } ∧
    (stopWatchSession sessions reportId).2.2 = s.pollTimer ∧
    (∀ e, e ∈ listActive (stopWatchSession sessions reportId).1 →
      e.reportId ≠ reportId) ∧
    (∀ other : Registry, lookupKey other reportId = none →
      stopWatchSession other reportId
        = (other,
            { status := 404, ok := false, error := some "Watch session not found" },
            false)) := by
  have hstop : stopWatchSession sessions reportId
      = (delKey sessions reportId, { status := 200, ok := true, error := none },
          s.pollTimer) := by
    unfold stopWatchSession
    rw [hs]
  refine ⟨by rw [hstop], by rw [hstop], by rw [hstop], ?_, ?_⟩
  · intro e he
    rw [hstop] at he
    obtain ⟨kv, hkv, rfl⟩ := List.mem_map.mp he
    have hmem := List.mem_filter.mp hkv
    simpa using hmem.2
  · intro other hnone
    unfold stopWatchSession
    rw [hnone]

/-- C8 amended witness: the demo session — stopping removes it from the
listing and reports its timer cancelled. -/
theorem stop_session_behavior_witness :
    lookupKey demoIdleRegistry "review-2" = some demoIdleSession ∧
    (stopWatchSession demoIdleRegistry "review-2").2.2
      = demoIdleSession.pollTimer :=
  ⟨by decide,
    (stop_session_behavior demoIdleRegistry "review-2" demoIdleSession
      (by decide)).2.2.1⟩

theorem screenshotsChangedD_self (A : Img) : screenshotsChangedD A A = false :=
  screenshotsChanged_self A defaultDiffThreshold (by norm_num [defaultDiffThreshold])

/-- C6: in a poll cycle, a key whose new raster is unchanged against the
persisted baseline (in particular a byte-identical one) issues no analysis
call, persists nothing and leaves the report untouched; a changed raster, or
one with no prior baseline, is persisted and analysed, committing the result. -/
theorem poll_diff_gating (report : Report) (k : String) (p c : Img)
    (a : Img → Except String ReviewResult) (res : ReviewResult) (ts : String) :
    (screenshotsChangedD p c = false →
      pollKeyStep report k (some p) (.ok c) a ts
        = { report := report, analysisIssued := false, persisted := false }) ∧
    pollKeyStep report k (some c) (.ok c) a ts
      = { report := report, analysisIssued := false, persisted := false } ∧
    (screenshotsChangedD p c = true → a c = .ok res →
      pollKeyStep report k (some p) (.ok c) a ts
        = { report := pollCommitResult report k res, analysisIssued := true,
            persisted := true }) ∧
    (a c = .ok res →
      pollKeyStep report k none (.ok c) a ts
        = { report := pollCommitResult report k res, analysisIssued := true,
            persisted := true }) := by
  refine ⟨?_, ?_, ?_, ?_⟩
  · intro h
    simp [pollKeyStep, h]
  · simp [pollKeyStep, screenshotsChangedD_self c]
  · intro h ha
    simp [pollKeyStep, h, ha]
  · intro ha
    simp [pollKeyStep, ha]

/-- C6 witness: a byte-identical re-capture of the demo image skips analysis
and leaves the report unchanged. -/
theorem poll_diff_gating_witness :
    screenshotsChangedD demoImgA demoImgA = false ∧
    pollKeyStep freshReport "home::desktop" (some demoImgA) (.ok demoImgA)
        (fun _ => .ok demoResult) "t4"
      = { report := freshReport, analysisIssued := false, persisted := false } :=
  ⟨screenshotsChangedD_self demoImgA,
    (poll_diff_gating freshReport "home::desktop" demoImgA demoImgA
      (fun _ => .ok demoResult) demoResult "t4").2.1⟩

/-- C7: for a page with a token-auth spec (and an auth state present) the
token is fetched exactly once per page however many viewports there are; on
fetch failure every viewport key of the page is marked in `errors` with a
token-generation message while `results` is untouched, and the run simply
continues with the remaining pages; on fetch success every viewport commits
its result under the page's single shared token suffix. -/
theorem token_failure_isolated (report : Report) (pg : PageSpec)
    (viewports : List String) (baseUrl : String) (skip : List String)
    (m ts : String) (o : String → Except String ReviewResult)
    (rest : List PageJob) (hTok : pg.tokenAuth.isSome = true) :
    (∀ tokenFetch : Except String Token,
      (processPage report pg viewports baseUrl true skip tokenFetch o ts).2 = 1) ∧
    (processPage report pg viewports baseUrl true skip (.error m) o ts).1.results
      = report.results ∧
    (∀ vp, vp ∈ viewports →
      lookupKey
          (processPage report pg viewports baseUrl true skip (.error m) o ts).1.errors
          (resultKey pg.name vp)
        = some { message := "Token generation failed: " ++ m, timestamp := ts }) ∧
    (processPages report
        ({ page := pg, tokenFetch := .error m, outcomes := o } :: rest)
        viewports baseUrl true skip ts
      = processPages
          (processPage report pg viewports baseUrl true skip (.error m) o ts).1
          rest viewports baseUrl true skip ts) ∧
    (∀ (tok : Token) (res : String → ReviewResult) (vp : String),
      vp ∈ viewports →
      lookupKey
          (processPage report pg viewports baseUrl true []
            (.ok tok) (fun v => .ok (res v)) ts).1.results
          (resultKey pg.name vp)
        = some { res vp with
                 url := fullUrlOf baseUrl pg (tokenSuffixOf pg tok),
                 viewport := vp }) := by
  refine ⟨?_, ?_, ?_, rfl, ?_⟩
  · intro tokenFetch
    cases tokenFetch <;> simp [processPage, hTok]
  · simp only [processPage, hTok, Bool.true_and, Bool.and_true, if_pos]
    exact foldl_commitError_results viewports (fun vp => resultKey pg.name vp) _ report
  · intro vp hvp
    simp only [processPage, hTok, Bool.true_and, Bool.and_true, if_pos]
    rw [foldl_commitError_errors viewports (fun vp => resultKey pg.name vp) _ report]
    exact lookupKey_foldl_setKey_const viewports report.errors
      (fun vp => resultKey pg.name vp) _ vp hvp
  · intro tok res vp hvp
    simp only [processPage, hTok, Bool.true_and, Bool.and_true, if_pos]
    have hfold :
        (viewports.foldl
          (fun acc v => processViewport acc pg.name
            (fullUrlOf baseUrl pg (tokenSuffixOf pg tok)) [] (.ok (res v)) v ts)
          report)
        = viewports.foldl
            (fun acc v => commitResult acc (resultKey pg.name v)
              { res v with
                url := fullUrlOf baseUrl pg (tokenSuffixOf pg tok),
                viewport := v })
            report := rfl
    rw [hfold,
      foldl_commitResult_results viewports (fun v => resultKey pg.name v)
        (fun v =>
          { res v with
            url := fullUrlOf baseUrl pg (tokenSuffixOf pg tok),
            viewport := v })
        report]
    exact lookupKey_foldl_setKey_inj viewports report.results
      (fun v => resultKey pg.name v)
      (fun v =>
        { res v with
          url := fullUrlOf baseUrl pg (tokenSuffixOf pg tok),
          viewport := v })
      (fun x y hxy => resultKey_right_inj pg.name x y hxy) vp hvp

/-- C7 witness: the 2 pages × 2 viewports scenario — page A's 500ing token
endpoint marks both of A's keys with a token-generation error, while page B's
two keys still succeed. -/
theorem token_failure_isolated_witness :
    demoPageA.tokenAuth.isSome = true ∧
    (∀ vp, vp ∈ ["desktop", "mobile"] →
      lookupKey
          (processPage freshReport demoPageA ["desktop", "mobile"] "http://site"
            true [] (.error "Token endpoint returned 500") demoJobA.outcomes
            "t2").1.errors
          (resultKey "A" vp)
        = some { message := "Token generation failed: Token endpoint returned 500",
                 timestamp := "t2" }) ∧
    hasKey demoScenarioReport.errors "A::desktop" = true ∧
    hasKey demoScenarioReport.errors "A::mobile" = true ∧
    hasKey demoScenarioReport.results "A::desktop" = false ∧
    hasKey demoScenarioReport.results "B::desktop" = true ∧
    hasKey demoScenarioReport.results "B::mobile" = true ∧
    hasKey demoScenarioReport.errors "B::desktop" = false :=
  ⟨by decide,
    (token_failure_isolated freshReport demoPageA ["desktop", "mobile"]
      "http://site" [] "Token endpoint returned 500" "t2" demoJobA.outcomes []
      (by decide)).2.2.1,
    by decide, by decide, by decide, by decide, by decide, by decide⟩

end UiReview
